import Mathlib

/-!
Shallow embedding of `src/github_activity.py` (GitHub Activity CLI) and
verification of the behavioural claims about its cache, fetch, filter,
enrichment and formatting stages.

Conventions of the embedding:
* Python dict-based event records become the `Event` structure; a field whose
  key may be absent is an `Option`.  Unknown extra keys are kept abstractly in
  `extra` so that frame conditions can be stated.
* `dict.get(k)` / `dict.get(k, default)` become `Option` matches with the same
  defaults as the source; direct indexing `d[k]` becomes an `Except String`
  value whose `error` case models the Python `KeyError`.
* The SQLite cache table becomes a list of `CacheRow` in insertion order;
  `datetime('now')` becomes an explicit `now : Int` (seconds).  The JSON
  round-trip `json.dumps` / `json.loads` of the cached payload is modelled as
  the identity on the event list.
* Network I/O becomes an explicit oracle argument (`NetResult` for the primary
  fetch, a `String → Except String RepoJson` oracle for enrichment), and the
  platform- and timezone-dependent `datetime.fromtimestamp` becomes an
  `Int → Except String Unit` oracle, whose `error` case models the
  `OverflowError`/`ValueError` it raises for out-of-range epochs;
  `sys.exit` and uncaught exceptions become constructors of `FetchResult`.
* Python string builtins are modelled on ASCII strings: CPython's `int()` and
  the `\d` of `_strptime` additionally accept Unicode decimal digits, which
  this embedding does not cover, so every theorem that relies on a parse
  FAILING carries an explicit all-ASCII hypothesis (`isAsciiCh`); on ASCII
  strings the modelled grammars are exact.
-/

/-- Embedding of the `repo` sub-dictionary of an event (`{'name': ...}`);
`name` is `none` when the key is absent. -/
structure RepoRef where
  name : Option String := none
deriving DecidableEq

/-- Embedding of the `repo_details` dictionary attached by `enrich_activity`:
either the `{stars, forks, description}` form built from a successful lookup
(each value `None` when missing from the response, exactly as
`repo_data.get(...)` yields) or the `{error: msg}` form. -/
inductive RepoDetails where
  | details (stars : Option Int) (forks : Option Int) (description : Option String)
  | failure (msg : String)
deriving DecidableEq

/-- Embedding of one activity event record.  Every key that the source reads
may be absent in a raw JSON event, hence the `Option` fields; `extra` stands
for all remaining keys of the dictionary, untouched by the program. -/
structure Event where
  type : Option String := none
  repo : Option RepoRef := none
  created_at : Option String := none
  message : Option String := none
  repo_details : Option RepoDetails := none
  extra : List (String × String) := []
deriving DecidableEq

/-- Embedding of the `filters` dictionary passed to `filter_activities` by
`main`: `types` is `args.types` (absent = `None`), whose elements are compared
against `activity.get('type')` and hence live in `Option String`; `repos` is
`args.repos`. -/
structure FilterSpec where
  types : Option (List (Option String)) := none
  repos : Option (List String) := none

/-- Python truthiness of an optional list (`not filters.get('types')`):
`None` and the empty list are falsy. -/
def pyTruthyList {α : Type} : Option (List α) → Bool
  | none => false
  | some l => !l.isEmpty

/-- Embedding of `activity.get('repo', {}).get('name', '')` from
`filter_activities`: a missing `repo` key or a missing `name` key yields the
empty string. -/
def repoKey (a : Event) : String :=
  match a.repo with
  | none => ""
  | some r => r.name.getD ""

/-- Embedding of `not filters.get('types') or event_type in filters['types']`
(line 76 of the source). -/
def typeMatch (fs : FilterSpec) (a : Event) : Bool :=
  !pyTruthyList fs.types || decide (a.type ∈ fs.types.getD [])

/-- Embedding of `not filters.get('repos') or repo in filters['repos']`
(line 77 of the source). -/
def repoMatch (fs : FilterSpec) (a : Event) : Bool :=
  !pyTruthyList fs.repos || decide (repoKey a ∈ fs.repos.getD [])

/-- Embedding of `filter_activities` (lines 69-81): the loop that appends an
activity to `filtered` exactly when both predicates hold. -/
def filter_activities : List Event → FilterSpec → List Event
  | [], _ => []
  | a :: rest, fs =>
    if typeMatch fs a && repoMatch fs a then a :: filter_activities rest fs
    else filter_activities rest fs

/-- One row of the SQLite `activities` table
(`username TEXT, data TEXT, timestamp DATETIME`); the JSON-serialized payload
is modelled as the event list itself and the timestamp as seconds. -/
structure CacheRow where
  username : String
  data : List Event
  timestamp : Int
deriving DecidableEq

/-- The freshness window of the cache: 10 minutes, in seconds. -/
def freshWindow : Int := 600

/-- Embedding of `_get_cached_activities` (lines 22-30): the `SELECT` returns
the first row whose username matches and whose timestamp is within the
10-minute window (`timestamp >= datetime('now', '-10 minutes')`, i.e.
`now - timestamp ≤ 600`); `fetchone` is `List.find?` over insertion order. -/
def _get_cached_activities (db : List CacheRow) (now : Int) (username : String) :
    Option (List Event) :=
  (db.find? (fun r => r.username == username && decide (now - r.timestamp ≤ freshWindow))).map
    (fun r => r.data)

/-- Embedding of `_cache_activities` (lines 32-37): `DELETE` every row with
this username, then `INSERT` the new row (appended in insertion order). -/
def _cache_activities (db : List CacheRow) (now : Int) (username : String)
    (data : List Event) : List CacheRow :=
  (db.filter (fun r => !(r.username == username))) ++ [⟨username, data, now⟩]

/-- The two rate-limit headers read from an `HTTPError`
(`X-RateLimit-Remaining`, `X-RateLimit-Reset`); `none` models an absent
header (`e.headers.get` returning `None`). -/
structure RateHeaders where
  remaining : Option String := none
  reset : Option String := none
deriving DecidableEq

/-- Outcome of the one `urlopen` call of the primary fetch, passed as an
oracle: a parsed 2xx body, an `HTTPError`, a `URLError`, or a body on which
`json.loads` raises (`badJson`). -/
inductive NetResult where
  | success (events : List Event)
  | httpError (code : Int) (reason : String) (headers : RateHeaders)
  | urlError (reason : String)
  | badJson (msg : String)
deriving DecidableEq

/-- Result of `fetch_activities`: a normal return (with the resulting cache
state and whether the network was consulted), a `sys.exit` after printing the
recorded report lines, or an exception propagating out of the function. -/
inductive FetchResult where
  | ok (events : List Event) (db : List CacheRow) (networkUsed : Bool)
  | fatal (statusReported : Option (Int × String)) (connReported : Option String)
      (resetReported : Option Int) (exitCode : Nat)
  | raised (statusReported : Option (Int × String)) (msg : String)
deriving DecidableEq

/-- Numeric value of a decimal digit character. -/
def digitVal (c : Char) : Nat := c.toNat - 48

/-- The decimal digit character for `n < 10`. -/
def digitChar10 (n : Nat) : Char := Char.ofNat (48 + n)

/-- Continuation of `digitsVal` after the first digit: each further position
is a digit, or a single underscore followed by a digit (Python `int()`
accepts single underscore separators strictly between digits: `1_0` parses,
`_1`, `1_` and `1__0` raise). -/
def digitsValGo : List Char → Nat → Option Nat
  | [], acc => some acc
  | '_' :: c :: rest, acc =>
    if c.isDigit then digitsValGo rest (10 * acc + digitVal c) else none
  | c :: rest, acc => if c.isDigit then digitsValGo rest (10 * acc + digitVal c) else none

/-- Value of the digit-and-underscore body accepted by Python `int()` (ASCII
digits; the first character must be a digit, underscores only between
digits); `none` models the `ValueError`. -/
def digitsVal : List Char → Option Nat
  | [] => none
  | c :: rest => if c.isDigit then digitsValGo rest (digitVal c) else none

/-- The message of the `TypeError` raised by `int(None)` when the
`X-RateLimit-Reset` header is absent. -/
def pyIntNoneMsg : String :=
  "TypeError: int() argument must be a string, a bytes-like object or a real number, not NoneType"

/-- The ASCII whitespace characters stripped by Python `int(s)`
(`str.isspace`): space, tab, newline, carriage return, vertical tab and form
feed.  (Unicode spaces are outside the ASCII scope of this model.) -/
def pyWsCh (c : Char) : Bool :=
  c == ' ' || c == '\t' || c == '\n' || c == '\r' || c == '\x0b' || c == '\x0c'

/-- Strip leading and trailing whitespace from a character list (the
whitespace tolerance of Python `int(s)`). -/
def stripWs (cs : List Char) : List Char :=
  ((cs.dropWhile pyWsCh).reverse.dropWhile pyWsCh).reverse

/-- Embedding of Python `int(s)` on an ASCII string: optional surrounding
whitespace, an optional sign, then at least one decimal digit with single
underscores allowed between digits; anything else raises `ValueError`.
(CPython additionally accepts Unicode decimal digits and spaces; theorems
that rely on the `ValueError` case therefore assume an ASCII argument.) -/
def pyIntOfString (s : String) : Except String Int :=
  match stripWs s.data with
  | '-' :: rest =>
    match digitsVal rest with
    | some n => .ok (-(n : Int))
    | none => .error ("ValueError: invalid literal for int() with base 10: " ++ s)
  | '+' :: rest =>
    match digitsVal rest with
    | some n => .ok (n : Int)
    | none => .error ("ValueError: invalid literal for int() with base 10: " ++ s)
  | cs =>
    match digitsVal cs with
    | some n => .ok (n : Int)
    | none => .error ("ValueError: invalid literal for int() with base 10: " ++ s)

/-- Embedding of `int(e.headers.get('X-RateLimit-Reset'))`: `int(None)`
raises `TypeError`, a non-numeric header raises `ValueError`. -/
def pyIntOfHeader : Option String → Except String Int
  | none => .error pyIntNoneMsg
  | some s => pyIntOfString s

/-- Embedding of `fetch_activities` (lines 39-67).  The cache consultation
uses Python truthiness (`if cached:`), so a cached empty list is treated as a
miss.  On `HTTPError` the status line is reported and, when
`X-RateLimit-Remaining == '0'`, the reset header is parsed with `int(...)`
and converted with `datetime.fromtimestamp`; the conversion depends on the
platform and local timezone and raises for out-of-range epochs, so it is the
oracle `fromts` — on success the parsed epoch is recorded as reported, and a
failing `int(...)` or a raising `fromtimestamp` propagates as an exception
after the status line was already printed.  On `URLError` the reason is
reported.  Both completed report paths end in `sys.exit(1)`. -/
def fetch_activities (db : List CacheRow) (now : Int) (username : String)
    (use_cache : Bool) (net : NetResult) (fromts : Int → Except String Unit) : FetchResult :=
  let hit : Option (List Event) :=
    if use_cache then
      match _get_cached_activities db now username with
      | some c => if c.isEmpty then none else some c
      | none => none
    else none
  match hit with
  | some c => .ok c db false
  | none =>
    match net with
    | .success events =>
      .ok events (if use_cache then _cache_activities db now username events else db) true
    | .httpError code reason hdr =>
      if hdr.remaining = some "0" then
        match pyIntOfHeader hdr.reset with
        | .ok t =>
          match fromts t with
          | .ok _ => .fatal (some (code, reason)) none (some t) 1
          | .error m => .raised (some (code, reason)) m
        | .error m => .raised (some (code, reason)) m
      else .fatal (some (code, reason)) none none 1
    | .urlError reason => .fatal none (some reason) none 1
    | .badJson m => .raised none m

/-- Exit code of the process as decided in `main` (lines 154-175): a fatal
fetch carries its own `sys.exit` code, and an exception raised out of
`fetch_activities` is caught by the top-level handlers, which `sys.exit(1)`;
`none` means the run continues past the fetch. -/
def mainExitCode : FetchResult → Option Nat
  | .ok _ _ _ => none
  | .fatal _ _ _ c => some c
  | .raised _ _ => some 1

/-- The fields of the repository-metadata response read by
`enrich_activity`, each obtained with `repo_data.get(...)` and hence `none`
when missing from the response body. -/
structure RepoJson where
  stargazers_count : Option Int := none
  forks_count : Option Int := none
  description : Option String := none
deriving DecidableEq

/-- Embedding of the direct indexing `activity['repo']['name']`: a missing
`repo` key or a missing `name` key raises `KeyError`. -/
def repoNameIndex (a : Event) : Except String String :=
  match a.repo with
  | none => .error "KeyError: repo"
  | some r =>
    match r.name with
    | none => .error "KeyError: name"
    | some n => .ok n

/-- Embedding of `enrich_activity` (lines 83-96).  The repository URL is
built from `activity['repo']['name']` BEFORE the `try` block, so a missing
key raises out of the function; any failure of the lookup itself (the oracle
returning `.error`) is caught and recorded as `{error: msg}`. -/
def enrich_activity (net : String → Except String RepoJson) (a : Event) :
    Except String Event :=
  match repoNameIndex a with
  | .error e => .error e
  | .ok n =>
    match net n with
    | .ok j =>
      .ok { a with
        repo_details := some (RepoDetails.details j.stargazers_count j.forks_count j.description) }
    | .error m => .ok { a with repo_details := some (RepoDetails.failure m) }

/-- The value `enrich_activity` produces for an event whose repo name is
present (used to state that each output element depends only on its own
input element). -/
def enrichOk (net : String → Except String RepoJson) (a : Event) : Event :=
  match repoNameIndex a with
  | .error _ => a
  | .ok n =>
    match net n with
    | .ok j =>
      { a with
        repo_details := some (RepoDetails.details j.stargazers_count j.forks_count j.description) }
    | .error m => { a with repo_details := some (RepoDetails.failure m) }

/-- A Python loop (or comprehension) over a list whose body may raise: stop
at the first exception, otherwise collect the results in order. -/
def exceptMap {ε α β : Type} (f : α → Except ε β) : List α → Except ε (List β)
  | [] => .ok []
  | x :: xs =>
    match f x with
    | .error e => .error e
    | .ok y =>
      match exceptMap f xs with
      | .error e => .error e
      | .ok ys => .ok (y :: ys)

/-- Embedding of the comprehension
`[github.enrich_activity(a) for a in filtered]` in `main` (line 164). -/
def enrichAll (net : String → Except String RepoJson) (acts : List Event) :
    Except String (List Event) :=
  exceptMap (enrich_activity net) acts

/-- The `colors` dictionary of `_format_text` (lines 114-119), in insertion
order; note that `reset` is itself a key of the dictionary. -/
def colors : List (String × String) :=
  [("PushEvent", "\x1b[92m"), ("PullRequestEvent", "\x1b[94m"),
   ("IssuesEvent", "\x1b[93m"), ("reset", "\x1b[0m")]

/-- Dictionary membership / lookup in `colors` (`act['type'] in colors`,
`colors[act['type']]`). -/
def lookupColor (t : String) : Option String :=
  (colors.find? (fun p => p.fst == t)).map (fun p => p.snd)

/-- One iteration of the `_format_text` loop (lines 121-125):
`- <type>: <message>` (message defaulting to the empty string), wrapped in
the looked-up escape sequence and the reset sequence when `color` is set and
the type is a key of `colors`; `act['type']` raises on a missing type. -/
def formatTextLine (color : Bool) (a : Event) : Except String String :=
  match a.type with
  | none => .error "KeyError: type"
  | some t =>
    let line := "- " ++ t ++ ": " ++ a.message.getD ""
    if color then
      match lookupColor t with
      | some c => .ok (c ++ line ++ "\x1b[0m")
      | none => .ok line
    else .ok line

/-- The line `formatTextLine` produces for an event that has a type (used to
state the shape of the whole text output). -/
def textLineModel (color : Bool) (a : Event) : String :=
  let t := a.type.getD ""
  let line := "- " ++ t ++ ": " ++ a.message.getD ""
  if color then
    match lookupColor t with
    | some c => c ++ line ++ "\x1b[0m"
    | none => line
  else line

/-- Embedding of `_format_text` (lines 111-126): render each event to a line
and join with newlines. -/
def _format_text (acts : List Event) (color : Bool) : Except String String :=
  match exceptMap (formatTextLine color) acts with
  | .error e => .error e
  | .ok lines => .ok (String.intercalate "\n" lines)

/-- The result of `strptime(s, "%Y-%m-%dT%H:%M:%SZ")`: broken-down fields. -/
structure DateTimeRec where
  year : Nat
  month : Nat
  day : Nat
  hour : Nat
  minute : Nat
  second : Nat
deriving DecidableEq

/-- Candidates for `%m` per CPython's `_strptime` pattern
`1[0-2]|0[1-9]|[1-9]`, in regex alternation order, each with the unconsumed
remainder (the month may be written without a leading zero). -/
def monthCands : List Char → List (Nat × List Char)
  | c1 :: c2 :: rest =>
    (if c1 == '1' && (c2 == '0' || c2 == '1' || c2 == '2')
      then [(10 + digitVal c2, rest)] else [])
    ++ (if c1 == '0' && c2.isDigit && c2 != '0' then [(digitVal c2, rest)] else [])
    ++ (if c1.isDigit && c1 != '0' then [(digitVal c1, c2 :: rest)] else [])
  | [c1] => if c1.isDigit && c1 != '0' then [(digitVal c1, [])] else []
  | [] => []

/-- Candidates for `%d` per the pattern `3[01]|[12]\d|0[1-9]|[1-9]`. -/
def dayCands : List Char → List (Nat × List Char)
  | c1 :: c2 :: rest =>
    (if c1 == '3' && (c2 == '0' || c2 == '1') then [(30 + digitVal c2, rest)] else [])
    ++ (if (c1 == '1' || c1 == '2') && c2.isDigit
      then [(10 * digitVal c1 + digitVal c2, rest)] else [])
    ++ (if c1 == '0' && c2.isDigit && c2 != '0' then [(digitVal c2, rest)] else [])
    ++ (if c1.isDigit && c1 != '0' then [(digitVal c1, c2 :: rest)] else [])
  | [c1] => if c1.isDigit && c1 != '0' then [(digitVal c1, [])] else []
  | [] => []

/-- Candidates for `%H` per the pattern `2[0-3]|[0-1]\d|\d`. -/
def hourCands : List Char → List (Nat × List Char)
  | c1 :: c2 :: rest =>
    (if c1 == '2' && c2.isDigit && digitVal c2 ≤ 3 then [(20 + digitVal c2, rest)] else [])
    ++ (if (c1 == '0' || c1 == '1') && c2.isDigit
      then [(10 * digitVal c1 + digitVal c2, rest)] else [])
    ++ (if c1.isDigit then [(digitVal c1, c2 :: rest)] else [])
  | [c1] => if c1.isDigit then [(digitVal c1, [])] else []
  | [] => []

/-- Candidates for `%M` per the pattern `[0-5]\d|\d`. -/
def minuteCands : List Char → List (Nat × List Char)
  | c1 :: c2 :: rest =>
    (if c1.isDigit && digitVal c1 ≤ 5 && c2.isDigit
      then [(10 * digitVal c1 + digitVal c2, rest)] else [])
    ++ (if c1.isDigit then [(digitVal c1, c2 :: rest)] else [])
  | [c1] => if c1.isDigit then [(digitVal c1, [])] else []
  | [] => []

/-- Candidates for `%S` per the pattern `6[0-1]|[0-5]\d|\d`. -/
def secondCands : List Char → List (Nat × List Char)
  | c1 :: c2 :: rest =>
    (if c1 == '6' && (c2 == '0' || c2 == '1') then [(60 + digitVal c2, rest)] else [])
    ++ (if c1.isDigit && digitVal c1 ≤ 5 && c2.isDigit
      then [(10 * digitVal c1 + digitVal c2, rest)] else [])
    ++ (if c1.isDigit then [(digitVal c1, c2 :: rest)] else [])
  | [c1] => if c1.isDigit then [(digitVal c1, [])] else []
  | [] => []

/-- Regex alternation with backtracking: try each candidate in order until
the continuation succeeds. -/
def firstHit {α β : Type} : List α → (α → Option β) → Option β
  | [], _ => none
  | x :: xs, f =>
    match f x with
    | some v => some v
    | none => firstHit xs f

/-- Consume one expected literal character. -/
def expectCh (c : Char) : List Char → Option (List Char)
  | x :: xs => if x == c then some xs else none
  | [] => none

/-- Consume one expected letter, accepting either case: the `_strptime`
regex is compiled with `re.IGNORECASE`, which for this format affects
exactly the literals `T` and `Z` (no other character case-folds to `t` or
`z`). -/
def expectChCI (lo up : Char) : List Char → Option (List Char)
  | x :: xs => if x == lo || x == up then some xs else none
  | [] => none

/-- `%Y`: exactly four digits. -/
def year4 : List Char → Option (Nat × List Char)
  | a :: b :: c :: d :: rest =>
    if a.isDigit && b.isDigit && c.isDigit && d.isDigit then
      some (1000 * digitVal a + 100 * digitVal b + 10 * digitVal c + digitVal d, rest)
    else none
  | _ => none

/-- Parse `:%M:%SZ` to end of input (the `unconverted data remains` check of
`_strptime` demands the remainder be empty). -/
def strptimeTail3 (y mo d h : Nat) (cs : List Char) : Option DateTimeRec :=
  firstHit (minuteCands cs) (fun p =>
    match expectCh ':' p.snd with
    | none => none
    | some cs2 =>
      firstHit (secondCands cs2) (fun q =>
        match expectChCI 'z' 'Z' q.snd with
        | some [] => some ⟨y, mo, d, h, p.fst, q.fst⟩
        | _ => none))

/-- Parse `%H` then the rest. -/
def strptimeTail2 (y mo d : Nat) (cs : List Char) : Option DateTimeRec :=
  firstHit (hourCands cs) (fun p =>
    match expectCh ':' p.snd with
    | none => none
    | some cs2 => strptimeTail3 y mo d p.fst cs2)

/-- Parse `%d` then the rest. -/
def strptimeTail1 (y mo : Nat) (cs : List Char) : Option DateTimeRec :=
  firstHit (dayCands cs) (fun p =>
    match expectChCI 't' 'T' p.snd with
    | none => none
    | some cs2 => strptimeTail2 y mo p.fst cs2)

/-- The regex match underlying
`datetime.strptime(s, "%Y-%m-%dT%H:%M:%SZ")`: CPython's `_strptime` compiles
the pattern with `re.IGNORECASE` (hence the case-insensitive `T` and `Z`)
and anchors it at both ends (`unconverted data remains`).  The `\d` of the
CPython pattern also matches Unicode decimal digits, which this ASCII model
does not cover: on all-ASCII input the model is exact, and theorems relying
on a failed match assume an all-ASCII string. -/
def strptimeMatch (s : String) : Option DateTimeRec :=
  match year4 s.data with
  | none => none
  | some (y, cs) =>
    match expectCh '-' cs with
    | none => none
    | some cs1 =>
      firstHit (monthCands cs1) (fun p =>
        match expectCh '-' p.snd with
        | none => none
        | some cs2 => strptimeTail1 y p.fst cs2)

/-- Gregorian leap-year rule used by `datetime`. -/
def isLeap (y : Nat) : Bool := y % 4 == 0 && (y % 100 != 0 || y % 400 == 0)

/-- Length of a month as validated by the `datetime` constructor. -/
def daysInMonth (y m : Nat) : Nat :=
  if m == 2 then (if isLeap y then 29 else 28)
  else if m == 4 || m == 6 || m == 9 || m == 11 then 30
  else 31

/-- The range checks of the `datetime` constructor (which in particular
rejects the leap seconds 60 and 61 that the `%S` pattern admits). -/
def validDateTime (t : DateTimeRec) : Bool :=
  decide (1 ≤ t.year ∧ t.year ≤ 9999 ∧ 1 ≤ t.month ∧ t.month ≤ 12 ∧
    1 ≤ t.day ∧ t.day ≤ daysInMonth t.year t.month ∧
    t.hour ≤ 23 ∧ t.minute ≤ 59 ∧ t.second ≤ 59)

/-- Full embedding of `datetime.strptime(s, "%Y-%m-%dT%H:%M:%SZ")`:
pattern match, then constructor validation; `none` models the raised
`ValueError`. -/
def strptimeIsoZ (s : String) : Option DateTimeRec :=
  match strptimeMatch s with
  | none => none
  | some t => if validDateTime t then some t else none

/-- Zero-padded two-digit rendering (`%m`, `%d`, `%H`, `%M` of `strftime`
for in-range values). -/
def pad2chars (n : Nat) : List Char := [digitChar10 (n / 10 % 10), digitChar10 (n % 10)]

/-- See `pad2chars`. -/
def pad2 (n : Nat) : String := String.mk (pad2chars n)

/-- Zero-padded four-digit rendering (`%Y` of `strftime` for in-range
values). -/
def pad4chars (n : Nat) : List Char :=
  [digitChar10 (n / 1000 % 10), digitChar10 (n / 100 % 10),
   digitChar10 (n / 10 % 10), digitChar10 (n % 10)]

/-- See `pad4chars`. -/
def pad4 (n : Nat) : String := String.mk (pad4chars n)

/-- The characters of `strftime("%Y")` on this platform: the year is
rendered as a plain unpadded decimal (glibc prints `tm_year + 1900` with no
padding), so years below 1000 render with fewer than four digits; the parse
guarantees `year ≤ 9999`. -/
def yearChars (y : Nat) : List Char :=
  if y < 10 then [digitChar10 y]
  else if y < 100 then [digitChar10 (y / 10), digitChar10 (y % 10)]
  else if y < 1000 then [digitChar10 (y / 100), digitChar10 (y / 10 % 10), digitChar10 (y % 10)]
  else pad4chars y

/-- See `yearChars`. -/
def strftimeYear (y : Nat) : String := String.mk (yearChars y)

/-- Embedding of `.strftime("%Y-%m-%d %H:%M")` on the parsed timestamp
(line 133): unpadded year, zero-padded month, day, hour and minute. -/
def strftimeCell (t : DateTimeRec) : String :=
  strftimeYear t.year ++ "-" ++ pad2 t.month ++ "-" ++ pad2 t.day ++ " "
    ++ pad2 t.hour ++ ":" ++ pad2 t.minute

/-- A timestamp string that matches the fixed pattern `YYYY-MM-DDTHH:MM:SSZ`
exactly (all components zero-padded), built from its numeric components. -/
def paddedTs (y mo d h mi s : Nat) : String :=
  pad4 y ++ "-" ++ pad2 mo ++ "-" ++ pad2 d ++ "T" ++ pad2 h ++ ":" ++ pad2 mi
    ++ ":" ++ pad2 s ++ "Z"

/-- One iteration of the `_format_table` loop (lines 132-135): parse
`act['created_at']`, reformat it, and build the row; direct indexing of
`created_at`, `type` and `repo.name` raises on missing keys, and an
unparseable timestamp raises `ValueError`. -/
def tableRow (a : Event) : Except String String :=
  match a.created_at with
  | none => .error "KeyError: created_at"
  | some ca =>
    match strptimeIsoZ ca with
    | none => .error ("ValueError: time data does not match format: " ++ ca)
    | some t =>
      match a.type with
      | none => .error "KeyError: type"
      | some ty =>
        match repoNameIndex a with
        | .error e => .error e
        | .ok rn =>
          .ok ("| " ++ strftimeCell t ++ " | " ++ ty ++ " | " ++ rn ++ " | "
            ++ a.message.getD "" ++ " |")

/-- The two fixed lines the table starts from (line 130-131); note the
leading newline inside the first string literal. -/
def tableHeaderLines : List String :=
  ["\n| Date | Type | Repository | Details |", "|------|------|------------|---------|"]

/-- Embedding of `_format_table` (lines 128-136): header lines, one row per
event, joined with newlines.  (The Python function also receives an unused
`color` argument.) -/
def _format_table (acts : List Event) : Except String String :=
  match exceptMap tableRow acts with
  | .error e => .error e
  | .ok rows => .ok (String.intercalate "\n" (tableHeaderLines ++ rows))

/-- Python list slicing `xs[:n]`: the first `n` elements for `n ≥ 0`, all
but the last `-n` elements for negative `n` (clamped at the ends). -/
def pyTakeTo {α : Type} (n : Int) (xs : List α) : List α :=
  if 0 ≤ n then xs.take n.toNat else xs.take ((xs.length : Int) + n).toNat

/-- Embedding of the filter-then-truncate step of `main` (lines 157-160):
`github.filter_activities(activities, {'types': args.types, 'repos':
args.repos})[:args.limit]`, where `args.types` and `args.repos` are optional
lists of strings. -/
def mainFilterLimit (activities : List Event) (types : Option (List String))
    (repos : Option (List String)) (limit : Int) : List Event :=
  pyTakeTo limit
    (filter_activities activities
      { types := types.map (fun l => l.map (fun s => some s)), repos := repos })

/-- A concrete well-formed event used by the closed witnesses and
counterexamples. -/
def sampleEvent : Event :=
  { type := some "PushEvent", repo := some { name := some "a/b" },
    created_at := some "2024-01-15T10:30:00Z", message := some "m" }

/-- A concrete event whose type is the `reset` key of the `colors`
dictionary. -/
def resetEvent : Event := { type := some "reset", message := some "x" }

/-- A concrete event whose `created_at` is NOT zero-padded (it does not match
the textual pattern `YYYY-MM-DDTHH:MM:SSZ`) yet is accepted by `strptime`. -/
def lenientEvent : Event :=
  { type := some "PushEvent", repo := some { name := some "a/b" },
    created_at := some "2024-1-15T10:30:00Z" }

/-- A concrete event whose `created_at` uses lowercase `t` and `z` (outside
the textual pattern) yet is accepted by the `re.IGNORECASE` `strptime`
match. -/
def lowercaseEvent : Event :=
  { type := some "PushEvent", repo := some { name := some "a/b" },
    created_at := some "2024-01-15t10:30:00z" }

/-- ASCII scope predicate for the modelled Python string builtins. -/
def isAsciiCh (c : Char) : Bool := c.toNat < 128

lemma filter_activities_eq_filter (acts : List Event) (fs : FilterSpec) :
    filter_activities acts fs = acts.filter (fun a => typeMatch fs a && repoMatch fs a) := by
  induction acts with
  | nil => rfl
  | cons a rest ih =>
    by_cases h : (typeMatch fs a && repoMatch fs a) = true
    · simp [filter_activities, List.filter_cons, h, ih]
    · simp [filter_activities, List.filter_cons, h, ih]

/-- C1: `filter_activities` keeps an event iff (the type set is absent/empty
or the event's type is in it) and (the repo set is absent/empty or the event's
`repo.name` is in it); the output is exactly the matching events in input
order — a sublist of the input with no matching event dropped and no
non-matching event kept. -/
theorem filter_activities_correct (acts : List Event) (fs : FilterSpec) :
    filter_activities acts fs = acts.filter (fun a => typeMatch fs a && repoMatch fs a)
    ∧ List.Sublist (filter_activities acts fs) acts
    ∧ (∀ a, a ∈ filter_activities acts fs ↔
        (a ∈ acts ∧ typeMatch fs a = true ∧ repoMatch fs a = true))
    ∧ (∀ a, typeMatch fs a = true ↔
        (fs.types = none ∨ fs.types = some [] ∨ a.type ∈ fs.types.getD []))
    ∧ (∀ a, repoMatch fs a = true ↔
        (fs.repos = none ∨ fs.repos = some [] ∨ repoKey a ∈ fs.repos.getD [])) := by
  refine ⟨filter_activities_eq_filter acts fs, ?_, ?_, ?_, ?_⟩
  · rw [filter_activities_eq_filter]
    exact List.filter_sublist acts
  · intro a
    rw [filter_activities_eq_filter]
    simp [List.mem_filter, and_assoc]
  · intro a
    unfold typeMatch pyTruthyList
    cases hts : fs.types with
    | none => simp
    | some l =>
      cases l with
      | nil => simp
      | cons x xs => simp
  · intro a
    unfold repoMatch pyTruthyList
    cases hrs : fs.repos with
    | none => simp
    | some l =>
      cases l with
      | nil => simp
      | cons x xs => simp

/-- C9: over records missing `type`, `repo` or `repo.name`, the filter
predicates use the source defaults — the missing type is compared as `None`
and the missing repo name as the empty string — so such an event passes a
non-empty type filter iff `None` is among the allowed types and a non-empty
repo filter iff `""` is among the allowed repo names (and it is never an
error: the embedding is total). -/
theorem filter_missing_fields_defaults (fs : FilterSpec) (e : Event) :
    (e.type = none →
      (typeMatch fs e = true ↔ (pyTruthyList fs.types = false ∨ none ∈ fs.types.getD [])))
    ∧ (e.repo = none →
      (repoMatch fs e = true ↔ (pyTruthyList fs.repos = false ∨ "" ∈ fs.repos.getD [])))
    ∧ (∀ r, e.repo = some r → r.name = none →
      (repoMatch fs e = true ↔ (pyTruthyList fs.repos = false ∨ "" ∈ fs.repos.getD []))) := by
  refine ⟨?_, ?_, ?_⟩
  · intro ht
    unfold typeMatch
    rw [ht]
    cases h : pyTruthyList fs.types <;> simp
  · intro hr
    unfold repoMatch repoKey
    rw [hr]
    cases h : pyTruthyList fs.repos <;> simp
  · intro r hr hn
    unfold repoMatch repoKey
    rw [hr]
    cases h : pyTruthyList fs.repos <;> simp [hn, Option.getD]

/-- Witness for `filter_missing_fields_defaults` at a concrete filter and
event: an event with no `type` and no `repo` key passes the filter
`{types: None, repos: ['']}` because `''` is among the allowed repo names. -/
theorem filter_missing_fields_defaults_witness :
    (typeMatch { types := none, repos := some [""] } {} = true ↔
      (pyTruthyList (none : Option (List (Option String))) = false ∨
        none ∈ ([] : List (Option String)))) := by
  have h := (filter_missing_fields_defaults { types := none, repos := some [""] } {}).1 rfl
  exact h


lemma find?_filter_out_none (db : List CacheRow) (now : Int) (u : String) :
    (db.filter (fun r => !(r.username == u))).find?
      (fun r => r.username == u && decide (now - r.timestamp ≤ freshWindow)) = none := by
  rw [List.find?_eq_none]
  intro r hr
  have hm := List.mem_filter.mp hr
  intro hp
  have h1 : (r.username == u) = true := (Bool.and_eq_true _ _ ▸ hp).1
  have h2 := hm.2
  rw [h1] at h2
  exact Bool.false_ne_true h2

lemma cached_after_write (db : List CacheRow) (now : Int) (u : String)
    (events : List Event) :
    _get_cached_activities (_cache_activities db now u events) now u = some events := by
  unfold _get_cached_activities _cache_activities
  rw [List.find?_append, find?_filter_out_none db now u]
  simp [List.find?_cons, freshWindow]

/-- C2 counterexample: writing the EMPTY event list for `alice` and fetching
`alice` again at the same instant with caching enabled does consult the
network (`networkUsed = true`) and returns whatever the network yields, not
the cached empty list — `if cached:` treats the cached `[]` as falsy.  The
claim predicts the result `.ok [] db false`. -/
theorem cache_empty_write_read_counterexample :
    fetch_activities (_cache_activities [] 0 "alice" []) 0 "alice" true (.success [sampleEvent])
      (fun _ => .ok ())
      = .ok [sampleEvent] [⟨"alice", [sampleEvent], 0⟩] true
    ∧ fetch_activities (_cache_activities [] 0 "alice" []) 0 "alice" true (.success [sampleEvent])
      (fun _ => .ok ())
      ≠ .ok [] (_cache_activities [] 0 "alice" []) false := by
  constructor
  · rfl
  · intro h
    simp [fetch_activities, _cache_activities, _get_cached_activities, freshWindow] at h

/-- C2 amended: with caching enabled, a cache write of a NON-EMPTY event list
for a username followed immediately by a fetch for that username returns the
identical event list without any network access and leaves the cache
unchanged (a cached EMPTY list is instead treated as a miss, because
`if cached:` uses Python truthiness); and the cache read never returns an
entry older than 10 minutes. -/
theorem cache_roundtrip_and_freshness :
    (∀ (db : List CacheRow) (now : Int) (u : String) (events : List Event) (net : NetResult)
      (fromts : Int → Except String Unit),
      events ≠ [] →
      fetch_activities (_cache_activities db now u events) now u true net fromts
        = .ok events (_cache_activities db now u events) false)
    ∧ (∀ (db : List CacheRow) (now : Int) (u : String),
      (∀ r ∈ db, r.username = u → freshWindow < now - r.timestamp) →
      _get_cached_activities db now u = none) := by
  constructor
  · intro db now u events net fromts hne
    unfold fetch_activities
    rw [cached_after_write db now u events]
    have : events.isEmpty = false := by
      cases events with
      | nil => exact absurd rfl hne
      | cons x xs => rfl
    simp [this]
  · intro db now u hstale
    unfold _get_cached_activities
    rw [List.find?_eq_none.mpr]
    · rfl
    · intro r hr hp
      have h1 : (r.username == u) = true := (Bool.and_eq_true _ _ ▸ hp).1
      have h2 : (decide (now - r.timestamp ≤ freshWindow)) = true :=
        (Bool.and_eq_true _ _ ▸ hp).2
      have h3 : r.username = u := by simpa using h1
      have h4 : now - r.timestamp ≤ freshWindow := of_decide_eq_true h2
      exact absurd h4 (not_le.mpr (hstale r hr h3))

/-- Witness for `cache_roundtrip_and_freshness`: a concrete non-empty write
is returned from the cache without network access, and a concrete entry
1000 seconds old is not returned. -/
theorem cache_roundtrip_and_freshness_witness :
    fetch_activities (_cache_activities [] 0 "bob" [sampleEvent]) 0 "bob" true (.urlError "down")
      (fun _ => .ok ())
      = .ok [sampleEvent] (_cache_activities [] 0 "bob" [sampleEvent]) false
    ∧ _get_cached_activities [⟨"bob", [sampleEvent], 0⟩] 1000 "bob" = none := by
  constructor
  · exact cache_roundtrip_and_freshness.1 [] 0 "bob" [sampleEvent] (.urlError "down")
      (fun _ => .ok ()) (by simp)
  · exact cache_roundtrip_and_freshness.2 [⟨"bob", [sampleEvent], 0⟩] 1000 "bob"
      (by intro r hr hu; simp at hr; rw [hr]; decide)

/-- C7: after a cache write for a username, exactly one row for that username
exists (so at most one), it is the newly inserted row, and the rows of every
other username are unchanged. -/
theorem cache_write_single_row (db : List CacheRow) (now : Int) (u : String)
    (data : List Event) :
    ((_cache_activities db now u data).filter (fun r => r.username == u)) = [⟨u, data, now⟩]
    ∧ ((_cache_activities db now u data).countP (fun r => r.username == u)) = 1
    ∧ (∀ v, v ≠ u →
      (_cache_activities db now u data).filter (fun r => r.username == v)
        = db.filter (fun r => r.username == v)) := by
  refine ⟨?_, ?_, ?_⟩
  · unfold _cache_activities
    rw [List.filter_append, List.filter_filter]
    have h1 : db.filter (fun r => r.username == u && !(r.username == u)) = [] := by
      rw [List.filter_eq_nil_iff]
      intro r _
      cases hru : (r.username == u) <;> simp [hru]
    rw [h1]
    simp
  · unfold _cache_activities
    rw [List.countP_append]
    have h1 : (db.filter (fun r => !(r.username == u))).countP (fun r => r.username == u) = 0 := by
      rw [List.countP_eq_zero]
      intro r hr
      have hm := List.mem_filter.mp hr
      cases hru : (r.username == u)
      · simp [hru]
      · rw [hru] at hm; simp at hm
    rw [h1]
    simp
  · intro v hv
    unfold _cache_activities
    rw [List.filter_append, List.filter_filter]
    have h2 : ((⟨u, data, now⟩ : CacheRow).username == v) = false := by
      simp
      intro h
      exact hv h.symm
    have h3 : List.filter (fun r => r.username == v) [(⟨u, data, now⟩ : CacheRow)] = [] := by
      simp [List.filter, h2]
    have h4 : db.filter (fun r => r.username == v && !(r.username == u))
        = db.filter (fun r => r.username == v) := by
      apply List.filter_congr
      intro r _
      cases hrv : (r.username == v)
      · simp
      · have : r.username = v := by simpa using hrv
        have : (r.username == u) = false := by
          simp [this]
          intro h
          exact hv (h ▸ rfl)
        simp [hrv, this]
    rw [h3, h4]
    simp

/-- Witness for `cache_write_single_row` at concrete inputs: writing for
`alice` leaves the single row for `alice` and does not disturb `bob`'s
row. -/
theorem cache_write_single_row_witness :
    ((_cache_activities [⟨"bob", [], 5⟩] 0 "alice" []).filter
      (fun r => r.username == "alice")) = [⟨"alice", [], 0⟩]
    ∧ (_cache_activities [⟨"bob", [], 5⟩] 0 "alice" []).filter
      (fun r => r.username == "bob") = [⟨"bob", [], 5⟩] := by
  constructor
  · exact (cache_write_single_row [⟨"bob", [], 5⟩] 0 "alice" []).1
  · have h := (cache_write_single_row [⟨"bob", [], 5⟩] 0 "alice" []).2.2 "bob" (by decide)
    rw [h]
    rfl

lemma fetch_miss_net (db : List CacheRow) (now : Int) (u : String) (uc : Bool)
    (net : NetResult) (fromts : Int → Except String Unit)
    (hmiss : uc = true →
      (_get_cached_activities db now u = none ∨ _get_cached_activities db now u = some [])) :
    fetch_activities db now u uc net fromts =
      match net with
      | .success events =>
        .ok events (if uc then _cache_activities db now u events else db) true
      | .httpError code reason hdr =>
        if hdr.remaining = some "0" then
          match pyIntOfHeader hdr.reset with
          | .ok t =>
            match fromts t with
            | .ok _ => .fatal (some (code, reason)) none (some t) 1
            | .error m => .raised (some (code, reason)) m
          | .error m => .raised (some (code, reason)) m
        else .fatal (some (code, reason)) none none 1
      | .urlError reason => .fatal none (some reason) none 1
      | .badJson m => .raised none m := by
  unfold fetch_activities
  cases uc with
  | false => simp
  | true =>
    rcases hmiss rfl with h | h
    · simp [h]
    · simp [h]

/-- C8 counterexample: an `HTTPError` whose headers carry
`X-RateLimit-Remaining: 0` but NO `X-RateLimit-Reset` header makes
`int(e.headers.get('X-RateLimit-Reset'))` raise `TypeError` — the status
line was printed but no reset time is reported and the `sys.exit(1)` of this
handler is never reached (the exception escapes `fetch_activities`).  A
reset header whose epoch is out of range for `datetime.fromtimestamp`
behaves the same way through the `fromts` oracle's `error` case. -/
theorem http_error_missing_reset_counterexample :
    fetch_activities [] 0 "alice" false (.httpError 403 "Forbidden" ⟨some "0", none⟩)
      (fun _ => .ok ())
      = .raised (some (403, "Forbidden")) pyIntNoneMsg := by
  rfl

/-- C8 amended: on an `HTTPError` from the primary fetch the status code and
reason are reported and the run ends with a non-zero exit code (through the
handler's own `sys.exit(1)`, or through `main`'s top-level handler when the
reset parse or conversion raises); the reset time is additionally reported
before `sys.exit(1)` exactly when the remaining-quota header is `'0'`, the
reset header is present and parses under `int()`, AND
`datetime.fromtimestamp` accepts the epoch (it raises for out-of-range
values, depending on platform and timezone); when the reset header is
absent, non-numeric (within ASCII), or its epoch is out of range, no reset
time is reported and a `TypeError`/`ValueError` propagates instead.  On a
`URLError` the reason is reported and the process exits with code 1. -/
theorem http_error_reporting :
    (∀ (db : List CacheRow) (now : Int) (u : String) (uc : Bool) (code : Int)
      (reason : String) (hdr : RateHeaders) (fromts : Int → Except String Unit),
      (uc = true →
        (_get_cached_activities db now u = none ∨ _get_cached_activities db now u = some [])) →
      hdr.remaining ≠ some "0" →
      fetch_activities db now u uc (.httpError code reason hdr) fromts
        = .fatal (some (code, reason)) none none 1)
    ∧ (∀ (db : List CacheRow) (now : Int) (u : String) (uc : Bool) (code : Int)
      (reason : String) (hdr : RateHeaders) (fromts : Int → Except String Unit) (t : Int),
      (uc = true →
        (_get_cached_activities db now u = none ∨ _get_cached_activities db now u = some [])) →
      hdr.remaining = some "0" → pyIntOfHeader hdr.reset = .ok t → fromts t = .ok () →
      fetch_activities db now u uc (.httpError code reason hdr) fromts
        = .fatal (some (code, reason)) none (some t) 1)
    ∧ (∀ (db : List CacheRow) (now : Int) (u : String) (uc : Bool) (code : Int)
      (reason : String) (hdr : RateHeaders) (fromts : Int → Except String Unit) (t : Int)
      (m : String),
      (uc = true →
        (_get_cached_activities db now u = none ∨ _get_cached_activities db now u = some [])) →
      hdr.remaining = some "0" → pyIntOfHeader hdr.reset = .ok t → fromts t = .error m →
      fetch_activities db now u uc (.httpError code reason hdr) fromts
        = .raised (some (code, reason)) m)
    ∧ (∀ (db : List CacheRow) (now : Int) (u : String) (uc : Bool) (code : Int)
      (reason : String) (hdr : RateHeaders) (fromts : Int → Except String Unit) (m : String),
      (uc = true →
        (_get_cached_activities db now u = none ∨ _get_cached_activities db now u = some [])) →
      (∀ s, hdr.reset = some s → s.data.all isAsciiCh = true) →
      hdr.remaining = some "0" → pyIntOfHeader hdr.reset = .error m →
      fetch_activities db now u uc (.httpError code reason hdr) fromts
        = .raised (some (code, reason)) m)
    ∧ (∀ (db : List CacheRow) (now : Int) (u : String) (uc : Bool) (code : Int)
      (reason : String) (hdr : RateHeaders) (fromts : Int → Except String Unit),
      (uc = true →
        (_get_cached_activities db now u = none ∨ _get_cached_activities db now u = some [])) →
      ∃ c, mainExitCode (fetch_activities db now u uc (.httpError code reason hdr) fromts)
        = some c ∧ 0 < c)
    ∧ (∀ (db : List CacheRow) (now : Int) (u : String) (uc : Bool) (reason : String)
      (fromts : Int → Except String Unit),
      (uc = true →
        (_get_cached_activities db now u = none ∨ _get_cached_activities db now u = some [])) →
      fetch_activities db now u uc (.urlError reason) fromts
        = .fatal none (some reason) none 1) := by
  refine ⟨?_, ?_, ?_, ?_, ?_, ?_⟩
  · intro db now u uc code reason hdr fromts hmiss hrem
    rw [fetch_miss_net db now u uc _ fromts hmiss]
    simp [hrem]
  · intro db now u uc code reason hdr fromts t hmiss hrem hreset hts
    rw [fetch_miss_net db now u uc _ fromts hmiss]
    simp [hrem, hreset, hts]
  · intro db now u uc code reason hdr fromts t m hmiss hrem hreset hts
    rw [fetch_miss_net db now u uc _ fromts hmiss]
    simp [hrem, hreset, hts]
  · intro db now u uc code reason hdr fromts m hmiss _ hrem hreset
    rw [fetch_miss_net db now u uc _ fromts hmiss]
    simp [hrem, hreset]
  · intro db now u uc code reason hdr fromts hmiss
    rw [fetch_miss_net db now u uc _ fromts hmiss]
    by_cases hrem : hdr.remaining = some "0"
    · cases hreset : pyIntOfHeader hdr.reset with
      | ok t =>
        cases hts : fromts t with
        | ok v => exact ⟨1, by simp [hrem, hreset, hts, mainExitCode], one_pos⟩
        | error m => exact ⟨1, by simp [hrem, hreset, hts, mainExitCode], one_pos⟩
      | error m => exact ⟨1, by simp [hrem, hreset, mainExitCode], one_pos⟩
    · exact ⟨1, by simp [hrem, mainExitCode], one_pos⟩
  · intro db now u uc reason fromts hmiss
    rw [fetch_miss_net db now u uc _ fromts hmiss]

/-- Witness for `http_error_reporting` at concrete inputs: a 403 with
remaining quota `'0'`, reset header `'1700000000'` and an accepting
conversion reports the status and the parsed epoch and exits 1; with a
rejecting conversion (an out-of-range epoch) the exception propagates with
no reset reported; and a connection error reports its reason and exits 1. -/
theorem http_error_reporting_witness :
    fetch_activities [] 0 "alice" false
      (.httpError 403 "Forbidden" ⟨some "0", some "1700000000"⟩) (fun _ => .ok ())
      = .fatal (some (403, "Forbidden")) none (some 1700000000) 1
    ∧ fetch_activities [] 0 "alice" false
      (.httpError 403 "Forbidden" ⟨some "0", some "999999999999999"⟩)
      (fun _ => .error "ValueError: year 31690708 is out of range")
      = .raised (some (403, "Forbidden")) "ValueError: year 31690708 is out of range"
    ∧ fetch_activities [] 0 "alice" false (.urlError "refused") (fun _ => .ok ())
      = .fatal none (some "refused") none 1 := by
  refine ⟨?_, ?_, ?_⟩
  · exact http_error_reporting.2.1 [] 0 "alice" false 403 "Forbidden"
      ⟨some "0", some "1700000000"⟩ (fun _ => .ok ()) 1700000000
      (by intro h; exact absurd h (by decide)) rfl (by rfl) rfl
  · exact http_error_reporting.2.2.1 [] 0 "alice" false 403 "Forbidden"
      ⟨some "0", some "999999999999999"⟩
      (fun _ => .error "ValueError: year 31690708 is out of range") 999999999999999
      "ValueError: year 31690708 is out of range"
      (by intro h; exact absurd h (by decide)) rfl (by rfl) rfl
  · exact http_error_reporting.2.2.2.2.2 [] 0 "alice" false "refused" (fun _ => .ok ())
      (by intro h; exact absurd h (by decide))
lemma exceptMap_ok_of_all {ε α β : Type} (f : α → Except ε β) (g : α → β) (l : List α)
    (h : ∀ a ∈ l, f a = .ok (g a)) : exceptMap f l = .ok (l.map g) := by
  induction l with
  | nil => rfl
  | cons x xs ih =>
    have hx : f x = .ok (g x) := h x (by simp)
    have hxs : exceptMap f xs = .ok (xs.map g) := ih (fun a ha => h a (by simp [ha]))
    simp [exceptMap, hx, hxs]

lemma enrich_activity_ok (net : String → Except String RepoJson) (a : Event) (n : String)
    (h : repoNameIndex a = .ok n) :
    enrich_activity net a = .ok (enrichOk net a) := by
  cases hn : net n <;> simp [enrich_activity, enrichOk, h, hn]

/-- C3 counterexample: an event with no `repo` key makes `enrich_activity`
raise `KeyError` (the repository URL is built from `activity['repo']['name']`
before the `try` block), instead of attaching `{error: msg}`; and a response
with missing fields yields `{stars: None, forks: None, description: None}`,
not the `{error: msg}` form the claim requires for missing response
fields. -/
theorem enrich_missing_repo_counterexample :
    enrich_activity (fun _ => .error "URLError: boom") { type := some "PushEvent" }
      = .error "KeyError: repo"
    ∧ enrich_activity (fun _ => .ok {}) sampleEvent
      = .ok { sampleEvent with repo_details := some (RepoDetails.details none none none) } := by
  constructor <;> rfl

/-- C3 amended: for every event whose `repo.name` IS present, any failure of
the secondary lookup itself (network error or parse error, i.e. the oracle
returning an exception message) is caught and recorded as `{error: msg}` on
that event, and enriching a list of such events never raises — each output
element is computed from its own input element only, so one event's lookup
failure cannot prevent the others from being enriched.  (An event missing
`repo` or `repo.name` instead raises `KeyError` out of `enrich_activity`,
and a response merely missing fields yields `None`-valued details, not
`{error: msg}`.) -/
theorem enrich_failure_isolation :
    (∀ (net : String → Except String RepoJson) (a : Event) (n m : String),
      repoNameIndex a = .ok n → net n = .error m →
      enrich_activity net a = .ok { a with repo_details := some (RepoDetails.failure m) })
    ∧ (∀ (net : String → Except String RepoJson) (acts : List Event),
      (∀ a ∈ acts, ∃ n, repoNameIndex a = .ok n) →
      enrichAll net acts = .ok (acts.map (enrichOk net))) := by
  constructor
  · intro net a n m h hn
    simp [enrich_activity, h, hn]
  · intro net acts h
    unfold enrichAll
    apply exceptMap_ok_of_all
    intro a ha
    rcases h a ha with ⟨n, hn⟩
    exact enrich_activity_ok net a n hn

/-- Witness for `enrich_failure_isolation`: a concrete failing lookup is
recorded per-item, and a two-event list where every lookup fails still
enriches both events. -/
theorem enrich_failure_isolation_witness :
    enrich_activity (fun _ => .error "URLError: boom") sampleEvent
      = .ok { sampleEvent with repo_details := some (RepoDetails.failure "URLError: boom") }
    ∧ enrichAll (fun _ => .error "URLError: boom") [sampleEvent, sampleEvent]
      = .ok [{ sampleEvent with repo_details := some (RepoDetails.failure "URLError: boom") },
          { sampleEvent with repo_details := some (RepoDetails.failure "URLError: boom") }] := by
  constructor
  · exact enrich_failure_isolation.1 (fun _ => .error "URLError: boom") sampleEvent
      "a/b" "URLError: boom" rfl rfl
  · have h := enrich_failure_isolation.2 (fun _ => .error "URLError: boom")
      [sampleEvent, sampleEvent]
      (by intro a ha; simp at ha; rw [ha]; exact ⟨"a/b", rfl⟩)
    rw [h]
    rfl

/-- C10: for every event whose `repo.name` is present, `enrich_activity`
returns the event with `repo_details` set and every other field (`type`,
`repo`, `created_at`, `message`, and the remaining keys `extra`) unchanged;
the attached value is `{stars, forks, description}` from a successful
response or `{error: msg}` from a failed lookup. -/
theorem enrich_frame (net : String → Except String RepoJson) (a : Event) (n : String)
    (h : repoNameIndex a = .ok n) :
    ∃ e2 d, enrich_activity net a = .ok e2
      ∧ e2.repo_details = some d
      ∧ e2.type = a.type ∧ e2.repo = a.repo ∧ e2.created_at = a.created_at
      ∧ e2.message = a.message ∧ e2.extra = a.extra
      ∧ ((∃ j, net n = .ok j
          ∧ d = RepoDetails.details j.stargazers_count j.forks_count j.description)
        ∨ (∃ m, net n = .error m ∧ d = RepoDetails.failure m)) := by
  cases hn : net n with
  | ok j =>
    exact ⟨{ a with
        repo_details := some (RepoDetails.details j.stargazers_count j.forks_count j.description) },
      RepoDetails.details j.stargazers_count j.forks_count j.description,
      by simp [enrich_activity, h, hn], rfl, rfl, rfl, rfl, rfl, rfl, Or.inl ⟨j, rfl, rfl⟩⟩
  | error m =>
    exact ⟨{ a with repo_details := some (RepoDetails.failure m) }, RepoDetails.failure m,
      by simp [enrich_activity, h, hn], rfl, rfl, rfl, rfl, rfl, rfl, Or.inr ⟨m, rfl, rfl⟩⟩

/-- Witness for `enrich_frame` at a concrete oracle and event. -/
theorem enrich_frame_witness :
    ∃ e2 d, enrich_activity (fun _ => .ok { stargazers_count := some 7 }) sampleEvent = .ok e2
      ∧ e2.repo_details = some d
      ∧ e2.type = sampleEvent.type ∧ e2.repo = sampleEvent.repo
      ∧ e2.created_at = sampleEvent.created_at ∧ e2.message = sampleEvent.message
      ∧ e2.extra = sampleEvent.extra
      ∧ ((∃ j, (fun _ => Except.ok { stargazers_count := some 7 } :
            String → Except String RepoJson) "a/b" = .ok j
          ∧ d = RepoDetails.details j.stargazers_count j.forks_count j.description)
        ∨ (∃ m, (fun _ => Except.ok { stargazers_count := some 7 } :
            String → Except String RepoJson) "a/b" = .error m
          ∧ d = RepoDetails.failure m)) :=
  enrich_frame (fun _ => .ok { stargazers_count := some 7 }) sampleEvent "a/b" rfl

/-- C4 counterexample: with the caller-supplied limit `-1` (accepted by
`--limit`, an `int` argument) and one matching event, `[:limit]` is a Python
slice that drops the LAST element, so the output has length 0 — and `0 > -1`,
so the output length exceeds the requested limit, and the result is not "the
first N filtered events" for any reading of `N = -1`. -/
theorem limit_negative_counterexample :
    mainFilterLimit [sampleEvent] none none (-1) = []
    ∧ ¬ (((mainFilterLimit [sampleEvent] none none (-1)).length : Int) ≤ -1) := by
  constructor
  · rfl
  · have h0 : mainFilterLimit [sampleEvent] none none (-1) = [] := rfl
    rw [h0]
    decide

/-- C4 amended: for every NON-NEGATIVE caller-supplied limit, truncation is
applied after filtering by taking the first `limit` filtered events, and the
length of the result never exceeds the limit.  (For a negative limit the
Python slice `[:limit]` instead drops `-limit` events from the end, and the
length bound fails.) -/
theorem limit_truncation_after_filter (acts : List Event)
    (types repos : Option (List String)) (limit : Int) (h : 0 ≤ limit) :
    mainFilterLimit acts types repos limit
      = (filter_activities acts
          { types := types.map (fun l => l.map (fun s => some s)),
            repos := repos }).take limit.toNat
    ∧ ((mainFilterLimit acts types repos limit).length : Int) ≤ limit := by
  constructor
  · unfold mainFilterLimit pyTakeTo
    rw [if_pos h]
  · unfold mainFilterLimit pyTakeTo
    rw [if_pos h, List.length_take]
    omega

/-- Witness for `limit_truncation_after_filter`: with limit 1 and two
matching events the output length is at most 1. -/
theorem limit_truncation_witness :
    ((mainFilterLimit [sampleEvent, sampleEvent] none none 1).length : Int) ≤ 1 :=
  (limit_truncation_after_filter [sampleEvent, sampleEvent] none none 1 (by decide)).2

lemma formatTextLine_ok (color : Bool) (a : Event) (t : String) (h : a.type = some t) :
    formatTextLine color a = .ok (textLineModel color a) := by
  cases color <;> cases hl : lookupColor t <;>
    simp [formatTextLine, textLineModel, h, hl]

/-- C5 counterexample: the `colors` dictionary contains the key `'reset'`, so
an event of type `reset` — not one of the three assigned-color types — has
its line wrapped in the reset escape sequence on both sides when `color` is
true, contradicting "never wrapped in escape sequences" for types outside
{PushEvent, PullRequestEvent, IssuesEvent}. -/
theorem text_reset_colored_counterexample :
    _format_text [resetEvent] true = .ok "\x1b[0m- reset: x\x1b[0m"
    ∧ _format_text [resetEvent] true ≠ .ok "- reset: x"
    ∧ ¬("reset" = "PushEvent" ∨ "reset" = "PullRequestEvent" ∨ "reset" = "IssuesEvent") := by
  refine ⟨rfl, ?_, by decide⟩
  intro h
  have h2 : _format_text [resetEvent] true = .ok "\x1b[0m- reset: x\x1b[0m" := rfl
  rw [h2] at h
  have h3 := Except.ok.inj h
  exact absurd h3 (by decide)

/-- C5 amended: in text mode every event with a type renders as the line
`- <type>: <message>`; with `color = false` the line is returned bare for
every type; with `color = true` the line is wrapped in the dictionary's
escape sequence and the reset sequence exactly for the KEYS of the `colors`
dictionary — `PushEvent` (green), `PullRequestEvent` (blue), `IssuesEvent`
(yellow) AND `reset` (whose "color" is the reset sequence itself) — and is
returned bare for every other type; the whole output is one such line per
event joined by newlines. -/
theorem text_format_coloring :
    (∀ (e : Event) (t : String), e.type = some t →
      formatTextLine false e = .ok ("- " ++ t ++ ": " ++ e.message.getD ""))
    ∧ (∀ (e : Event) (t : String), e.type = some t → lookupColor t = none →
      formatTextLine true e = .ok ("- " ++ t ++ ": " ++ e.message.getD ""))
    ∧ (∀ (e : Event) (t c : String), e.type = some t → lookupColor t = some c →
      formatTextLine true e = .ok (c ++ ("- " ++ t ++ ": " ++ e.message.getD "") ++ "\x1b[0m"))
    ∧ lookupColor "PushEvent" = some "\x1b[92m"
    ∧ lookupColor "PullRequestEvent" = some "\x1b[94m"
    ∧ lookupColor "IssuesEvent" = some "\x1b[93m"
    ∧ lookupColor "reset" = some "\x1b[0m"
    ∧ (∀ s : String,
      s ≠ "PushEvent" → s ≠ "PullRequestEvent" → s ≠ "IssuesEvent" → s ≠ "reset" →
      lookupColor s = none)
    ∧ (∀ (acts : List Event) (color : Bool), (∀ a ∈ acts, a.type.isSome) →
      _format_text acts color = .ok (String.intercalate "\n" (acts.map (textLineModel color)))
      ∧ (acts.map (textLineModel color)).length = acts.length) := by
  refine ⟨?_, ?_, ?_, rfl, rfl, rfl, rfl, ?_, ?_⟩
  · intro e t h
    simp [formatTextLine, h]
  · intro e t h hl
    simp [formatTextLine, h, hl]
  · intro e t c h hl
    simp [formatTextLine, h, hl]
  · intro s h1 h2 h3 h4
    have e1 : ("PushEvent" == s) = false := beq_eq_false_iff_ne.mpr (Ne.symm h1)
    have e2 : ("PullRequestEvent" == s) = false := beq_eq_false_iff_ne.mpr (Ne.symm h2)
    have e3 : ("IssuesEvent" == s) = false := beq_eq_false_iff_ne.mpr (Ne.symm h3)
    have e4 : ("reset" == s) = false := beq_eq_false_iff_ne.mpr (Ne.symm h4)
    simp [lookupColor, colors, List.find?, e1, e2, e3, e4]
  · intro acts color h
    have hmap : exceptMap (formatTextLine color) acts = .ok (acts.map (textLineModel color)) := by
      apply exceptMap_ok_of_all
      intro a ha
      rcases Option.isSome_iff_exists.mp (h a ha) with ⟨t, ht⟩
      exact formatTextLine_ok color a t ht
    constructor
    · unfold _format_text
      rw [hmap]
    · exact List.length_map _ _

/-- Witness for `text_format_coloring` at concrete events: a `PushEvent`
line is wrapped in the green and reset sequences when colored and bare when
not. -/
theorem text_format_coloring_witness :
    formatTextLine true { type := some "PushEvent", message := some "hi" }
      = .ok ("\x1b[92m" ++ ("- " ++ "PushEvent" ++ ": "
        ++ ({ type := some "PushEvent", message := some "hi" } : Event).message.getD "")
        ++ "\x1b[0m")
    ∧ formatTextLine false { type := some "PushEvent", message := some "hi" }
      = .ok ("- " ++ "PushEvent" ++ ": "
        ++ ({ type := some "PushEvent", message := some "hi" } : Event).message.getD "")
    ∧ lookupColor "ForkEvent" = none := by
  refine ⟨?_, ?_, ?_⟩
  · exact text_format_coloring.2.2.1 { type := some "PushEvent", message := some "hi" }
      "PushEvent" "\x1b[92m" rfl rfl
  · exact text_format_coloring.1 { type := some "PushEvent", message := some "hi" }
      "PushEvent" rfl
  · exact text_format_coloring.2.2.2.2.2.2.2.1 "ForkEvent"
      (by decide) (by decide) (by decide) (by decide)

lemma string_data_append (s t : String) : (s ++ t).data = s.data ++ t.data := rfl

lemma string_data_mk (l : List Char) : (String.mk l).data = l := rfl

lemma digitChar10_isDigit (k : Nat) (h : k < 10) : (digitChar10 k).isDigit = true := by
  interval_cases k <;> decide

lemma digitVal_digitChar10 (k : Nat) (h : k < 10) : digitVal (digitChar10 k) = k := by
  interval_cases k <;> decide

lemma year4_pad4 (y : Nat) (h : y ≤ 9999) (rest : List Char) :
    year4 (pad4chars y ++ rest) = some (y, rest) := by
  have h1 : y / 1000 % 10 < 10 := Nat.mod_lt _ (by norm_num)
  have h2 : y / 100 % 10 < 10 := Nat.mod_lt _ (by norm_num)
  have h3 : y / 10 % 10 < 10 := Nat.mod_lt _ (by norm_num)
  have h4 : y % 10 < 10 := Nat.mod_lt _ (by norm_num)
  simp [pad4chars, year4, digitChar10_isDigit _ h1, digitChar10_isDigit _ h2,
    digitChar10_isDigit _ h3, digitChar10_isDigit _ h4,
    digitVal_digitChar10 _ h1, digitVal_digitChar10 _ h2,
    digitVal_digitChar10 _ h3, digitVal_digitChar10 _ h4]
  omega

lemma monthCands_pad2 (mo : Nat) (h1 : 1 ≤ mo) (h2 : mo ≤ 12) (rest : List Char) :
    ∃ tl, monthCands (pad2chars mo ++ rest) = (mo, rest) :: tl := by
  interval_cases mo <;> exact ⟨_, rfl⟩

lemma dayCands_pad2 (d : Nat) (h1 : 1 ≤ d) (h2 : d ≤ 31) (rest : List Char) :
    ∃ tl, dayCands (pad2chars d ++ rest) = (d, rest) :: tl := by
  interval_cases d <;> exact ⟨_, rfl⟩

lemma hourCands_pad2 (h : Nat) (h2 : h ≤ 23) (rest : List Char) :
    ∃ tl, hourCands (pad2chars h ++ rest) = (h, rest) :: tl := by
  interval_cases h <;> exact ⟨_, rfl⟩

lemma minuteCands_pad2 (mi : Nat) (h2 : mi ≤ 59) (rest : List Char) :
    ∃ tl, minuteCands (pad2chars mi ++ rest) = (mi, rest) :: tl := by
  interval_cases mi <;> exact ⟨_, rfl⟩

lemma secondCands_pad2 (s : Nat) (h2 : s ≤ 59) (rest : List Char) :
    ∃ tl, secondCands (pad2chars s ++ rest) = (s, rest) :: tl := by
  interval_cases s <;> exact ⟨_, rfl⟩

lemma strptimeTail3_pad (y mo d h mi s : Nat) (hmi : mi ≤ 59) (hs : s ≤ 59) :
    strptimeTail3 y mo d h (pad2chars mi ++ (':' :: (pad2chars s ++ ['Z'])))
      = some ⟨y, mo, d, h, mi, s⟩ := by
  obtain ⟨tl1, htl1⟩ := minuteCands_pad2 mi hmi (':' :: (pad2chars s ++ ['Z']))
  obtain ⟨tl2, htl2⟩ := secondCands_pad2 s hs ['Z']
  unfold strptimeTail3
  rw [htl1]
  simp [firstHit, expectCh, expectChCI, htl2]

lemma strptimeTail2_pad (y mo d h mi s : Nat) (hh : h ≤ 23) (hmi : mi ≤ 59) (hs : s ≤ 59) :
    strptimeTail2 y mo d (pad2chars h ++ (':' :: (pad2chars mi ++ (':' :: (pad2chars s ++ ['Z'])))))
      = some ⟨y, mo, d, h, mi, s⟩ := by
  obtain ⟨tl1, htl1⟩ := hourCands_pad2 h hh (':' :: (pad2chars mi ++ (':' :: (pad2chars s ++ ['Z']))))
  unfold strptimeTail2
  rw [htl1]
  simp [firstHit, expectCh, strptimeTail3_pad y mo d h mi s hmi hs]

lemma strptimeTail1_pad (y mo d h mi s : Nat) (hd1 : 1 ≤ d) (hd2 : d ≤ 31)
    (hh : h ≤ 23) (hmi : mi ≤ 59) (hs : s ≤ 59) :
    strptimeTail1 y mo
      (pad2chars d ++ ('T' :: (pad2chars h ++ (':' :: (pad2chars mi ++ (':' :: (pad2chars s ++ ['Z'])))))))
      = some ⟨y, mo, d, h, mi, s⟩ := by
  obtain ⟨tl1, htl1⟩ := dayCands_pad2 d hd1 hd2
    ('T' :: (pad2chars h ++ (':' :: (pad2chars mi ++ (':' :: (pad2chars s ++ ['Z']))))))
  unfold strptimeTail1
  rw [htl1]
  simp [firstHit, expectCh, expectChCI, strptimeTail2_pad y mo d h mi s hh hmi hs]

lemma paddedTs_data (y mo d h mi s : Nat) :
    (paddedTs y mo d h mi s).data =
      pad4chars y ++ ('-' :: (pad2chars mo ++ ('-' :: (pad2chars d ++ ('T' :: (pad2chars h ++
        (':' :: (pad2chars mi ++ (':' :: (pad2chars s ++ ['Z'])))))))))) := by
  have hdash : ("-" : String).data = ['-'] := rfl
  have hT : ("T" : String).data = ['T'] := rfl
  have hcolon : (":" : String).data = [':'] := rfl
  have hZ : ("Z" : String).data = ['Z'] := rfl
  simp only [paddedTs, pad2, pad4, string_data_append, string_data_mk, hdash, hT, hcolon, hZ,
    List.append_assoc, List.singleton_append, List.cons_append, List.nil_append]

lemma strptimeMatch_padded (y mo d h mi s : Nat) (hy : y ≤ 9999)
    (hmo1 : 1 ≤ mo) (hmo2 : mo ≤ 12) (hd1 : 1 ≤ d) (hd2 : d ≤ 31)
    (hh : h ≤ 23) (hmi : mi ≤ 59) (hs : s ≤ 59) :
    strptimeMatch (paddedTs y mo d h mi s) = some ⟨y, mo, d, h, mi, s⟩ := by
  obtain ⟨tl1, htl1⟩ := monthCands_pad2 mo hmo1 hmo2
    ('-' :: (pad2chars d ++ ('T' :: (pad2chars h ++
      (':' :: (pad2chars mi ++ (':' :: (pad2chars s ++ ['Z']))))))))
  unfold strptimeMatch
  rw [paddedTs_data, year4_pad4 y hy]
  simp [expectCh, htl1, firstHit,
    strptimeTail1_pad y mo d h mi s hd1 hd2 hh hmi hs]

lemma daysInMonth_le_31 (y m : Nat) : daysInMonth y m ≤ 31 := by
  unfold daysInMonth
  split_ifs <;> omega

lemma strptimeIsoZ_padded (y mo d h mi s : Nat) (hy1 : 1 ≤ y) (hy : y ≤ 9999)
    (hmo1 : 1 ≤ mo) (hmo2 : mo ≤ 12) (hd1 : 1 ≤ d) (hd2 : d ≤ daysInMonth y mo)
    (hh : h ≤ 23) (hmi : mi ≤ 59) (hs : s ≤ 59) :
    strptimeIsoZ (paddedTs y mo d h mi s) = some ⟨y, mo, d, h, mi, s⟩ := by
  have hd31 : d ≤ 31 := le_trans hd2 (daysInMonth_le_31 y mo)
  have hv : validDateTime ⟨y, mo, d, h, mi, s⟩ = true := by
    simp only [validDateTime, decide_eq_true_eq]
    exact ⟨hy1, hy, hmo1, hmo2, hd1, hd2, hh, hmi, hs⟩
  simp [strptimeIsoZ, strptimeMatch_padded y mo d h mi s hy hmo1 hmo2 hd1 hd31 hh hmi hs, hv]

lemma exceptMap_error_of_mem {ε α β : Type} (f : α → Except ε β) (l : List α) (a : α)
    (ha : a ∈ l) (e : ε) (he : f a = .error e) : ∃ e2, exceptMap f l = .error e2 := by
  induction l with
  | nil => cases ha
  | cons x xs ih =>
    rcases List.mem_cons.mp ha with h | h
    · subst h
      exact ⟨e, by simp [exceptMap, he]⟩
    · cases hx : f x with
      | error e3 => exact ⟨e3, by simp [exceptMap, hx]⟩
      | ok y =>
        rcases ih h with ⟨e2, he2⟩
        exact ⟨e2, by simp [exceptMap, hx, he2]⟩

lemma strftimeYear_ge1000 (y : Nat) (h : 1000 ≤ y) : strftimeYear y = pad4 y := by
  unfold strftimeYear yearChars pad4
  rw [if_neg (by omega), if_neg (by omega), if_neg (by omega)]

/-- C6 counterexample: the output of table mode does NOT begin with the
header row — the first header string carries a leading `"\n"`, so the output
begins with an empty line; and two `created_at` values outside the textual
pattern `YYYY-MM-DDTHH:MM:SSZ` are NOT fatal errors: `2024-1-15T10:30:00Z`
(month not zero-padded) and `2024-01-15t10:30:00z` (lowercase separators,
accepted by the `re.IGNORECASE` match) both render normal rows. -/
theorem table_format_counterexample :
    _format_table []
      = .ok "\n| Date | Type | Repository | Details |\n|------|------|------------|---------|"
    ∧ ("\n| Date | Type | Repository | Details |\n|------|------|------------|---------|"
        : String).data.head? = some '\n'
    ∧ _format_table [lenientEvent]
      = .ok "\n| Date | Type | Repository | Details |\n|------|------|------------|---------|\n| 2024-01-15 10:30 | PushEvent | a/b |  |"
    ∧ lenientEvent.created_at = some "2024-1-15T10:30:00Z"
    ∧ _format_table [lowercaseEvent]
      = .ok "\n| Date | Type | Repository | Details |\n|------|------|------------|---------|\n| 2024-01-15 10:30 | PushEvent | a/b |  |"
    ∧ lowercaseEvent.created_at = some "2024-01-15t10:30:00z" := by
  exact ⟨rfl, rfl, rfl, rfl, rfl, rfl⟩

/-- C6 amended: in table mode every `created_at` of the form
`YYYY-MM-DDTHH:MM:SSZ` (zero-padded, in-range components) parses to its
components, and the rendered date cell is the unpadded year followed by
zero-padded `-MM-DD HH:MM` — identical to the claim's `YYYY-MM-DD HH:MM`
whenever the year is at least 1000 (this platform's `%Y` drops leading
zeros, so year 5 renders as `5`); each row renders
`| <date> | <type> | <repo> | <message> |`; an ASCII `created_at` that the
`strptime` call cannot parse makes the whole table formatting raise a fatal
error (Python's `strptime` is case-insensitive on `T`/`Z` and accepts
non-zero-padded and Unicode-digit components, so not every string outside
the textual pattern is an error); and the output is the header row
`| Date | Type | Repository | Details |` — preceded by an empty line from
the leading `"\n"` of the header literal — then the separator row, then one
row per event. -/
theorem table_format_correct :
    (∀ (y mo d h mi s : Nat), 1 ≤ y → y ≤ 9999 → 1 ≤ mo → mo ≤ 12 → 1 ≤ d →
      d ≤ daysInMonth y mo → h ≤ 23 → mi ≤ 59 → s ≤ 59 →
      strptimeIsoZ (paddedTs y mo d h mi s) = some ⟨y, mo, d, h, mi, s⟩
      ∧ strftimeCell ⟨y, mo, d, h, mi, s⟩
        = strftimeYear y ++ "-" ++ pad2 mo ++ "-" ++ pad2 d ++ " " ++ pad2 h ++ ":" ++ pad2 mi
      ∧ (1000 ≤ y →
        strftimeCell ⟨y, mo, d, h, mi, s⟩
          = pad4 y ++ "-" ++ pad2 mo ++ "-" ++ pad2 d ++ " " ++ pad2 h ++ ":" ++ pad2 mi))
    ∧ (∀ (a : Event) (ca : String) (t : DateTimeRec) (ty rn : String),
      a.created_at = some ca → strptimeIsoZ ca = some t → a.type = some ty →
      repoNameIndex a = .ok rn →
      tableRow a = .ok ("| " ++ strftimeCell t ++ " | " ++ ty ++ " | " ++ rn ++ " | "
        ++ a.message.getD "" ++ " |"))
    ∧ (∀ (acts : List Event) (a : Event) (ca : String), a ∈ acts →
      a.created_at = some ca → ca.data.all isAsciiCh = true → strptimeIsoZ ca = none →
      ∃ m, _format_table acts = .error m)
    ∧ (∀ (acts : List Event) (rows : List String), exceptMap tableRow acts = .ok rows →
      _format_table acts = .ok (String.intercalate "\n"
        ("\n| Date | Type | Repository | Details |"
          :: "|------|------|------------|---------|" :: rows))) := by
  refine ⟨?_, ?_, ?_, ?_⟩
  · intro y mo d h mi s hy1 hy hmo1 hmo2 hd1 hd2 hh hmi hs
    refine ⟨strptimeIsoZ_padded y mo d h mi s hy1 hy hmo1 hmo2 hd1 hd2 hh hmi hs, rfl, ?_⟩
    intro h1000
    unfold strftimeCell
    rw [strftimeYear_ge1000 _ h1000]
  · intro a ca t ty rn hca ht hty hrn
    simp [tableRow, hca, ht, hty, hrn]
  · intro acts a ca ha hca _ hparse
    have hrow : tableRow a = .error ("ValueError: time data does not match format: " ++ ca) := by
      simp [tableRow, hca, hparse]
    obtain ⟨m, hm⟩ := exceptMap_error_of_mem tableRow acts a ha _ hrow
    exact ⟨m, by simp [_format_table, hm]⟩
  · intro acts rows h
    simp [_format_table, h, tableHeaderLines]

/-- Witness for `table_format_correct`: the spec's own example — the padded
timestamp for 2024-01-15 10:30:00 is the string `2024-01-15T10:30:00Z`, it
parses, and its rendered date cell is `2024-01-15 10:30` (the year 2024 is
at least 1000, so the four-digit form applies). -/
theorem table_format_witness :
    strptimeIsoZ (paddedTs 2024 1 15 10 30 0) = some ⟨2024, 1, 15, 10, 30, 0⟩
    ∧ strftimeCell ⟨2024, 1, 15, 10, 30, 0⟩
      = pad4 2024 ++ "-" ++ pad2 1 ++ "-" ++ pad2 15 ++ " " ++ pad2 10 ++ ":" ++ pad2 30
    ∧ paddedTs 2024 1 15 10 30 0 = "2024-01-15T10:30:00Z"
    ∧ strftimeCell ⟨2024, 1, 15, 10, 30, 0⟩ = "2024-01-15 10:30" := by
  refine ⟨?_, ?_, rfl, rfl⟩
  · exact (table_format_correct.1 2024 1 15 10 30 0 (by decide) (by decide) (by decide)
      (by decide) (by decide) (by decide) (by decide) (by decide) (by decide)).1
  · exact (table_format_correct.1 2024 1 15 10 30 0 (by decide) (by decide) (by decide)
      (by decide) (by decide) (by decide) (by decide) (by decide) (by decide)).2.2 (by decide)
